import Mathlib

/-!
Verification development for the RPC method-dispatch core of the
charl-kruger/rwlink repository.

The embedding below translates, from the TypeScript source:
  * the `@callable` registration mechanism, `getCallableMethods`,
    `isCallableMethod` and `dispatchRpcCall` (src/lib/callable.ts);
  * the stateful object `AgentObject` with its `fetch` entry point and the
    methods `ping`, `getState`, `addMessage`, `dangerousMethod`
    (src/agent.ts);
  * the client proxy `ActorProxy.callMethod` response handling
    (src/lib/actorClient.ts).

JSON values are modelled by an inductive `Json` AST; the platform string
round trip JSON.stringify/JSON.parse is an external collaborator and is
not modelled, so the server envelope and the parsed client body are both
Json values.  JavaScript Date objects are modelled by their ISO string,
supplied through an explicit `Clock` argument (one clock reading per
invocation).  Numbers are modelled as Int.
-/

/-- A JSON value.  `obj` keeps fields in insertion order, like the object
literals produced by the source. -/
inductive Json where
  | null : Json
  | bool (b : Bool) : Json
  | num (n : Int) : Json
  | str (s : String) : Json
  | arr (elems : List Json) : Json
  | obj (fields : List (String × Json)) : Json

/-- JavaScript truthiness of a JSON value, as used by `if (result.error)`
and by `timezone ? ... : ...` in the source. -/
def Json.truthy : Json → Bool
  | Json.null => false
  | Json.bool b => b
  | Json.num n => n != 0
  | Json.str s => s != ""
  | Json.arr _ => true
  | Json.obj _ => true

/-- Truthiness lifted to a possibly absent (undefined) value. -/
def jsTruthyOpt : Option Json → Bool
  | none => false
  | some j => j.truthy

mutual

/-- JavaScript template-literal stringification of a JSON value (the
`String(v)` conversion used by template literals in the source).  Arrays
stringify as comma-joined elements; plain objects as "[object Object]". -/
def Json.display : Json → String
  | Json.null => "null"
  | Json.bool b => if b then "true" else "false"
  | Json.num n => toString n
  | Json.str s => s
  | Json.arr es => displayElems es
  | Json.obj _ => "[object Object]"

/-- Comma-joined stringification of array elements. -/
def displayElems : List Json → String
  | [] => ""
  | [j] => Json.display j
  | j :: k :: rest => Json.display j ++ "," ++ displayElems (k :: rest)

end

/-- Template-literal stringification of a possibly absent value: an
undefined interpolant renders as "undefined" in JavaScript. -/
def jsDisplayOpt : Option Json → String
  | none => "undefined"
  | some j => j.display

/-- Property access `j[key]` on a JSON value: `none` models undefined.
Non-object values yield undefined (abstracting the `null` TypeError
corner, which no claim exercises). -/
def jsonGet (j : Json) (key : String) : Option Json :=
  match j with
  | Json.obj fields => (fields.find? (fun p => p.1 == key)).map (fun p => p.2)
  | _ => none

/-- Whether a JSON object value has the given field present. -/
def hasField (j : Json) (key : String) : Bool :=
  (jsonGet j key).isSome

/-! ## Method registry (src/lib/callable.ts) -/

/-- One registry entry: `{ name: propertyKey, descriptor }` pushed by the
`callable()` decorator.  The property descriptor is modelled by the name
of the underlying implementation. -/
structure MethodMetadata where
  name : String
  descriptor : String

/-- The body of the `callable()` decorator applied to one method: read the
current metadata list (`[]` when absent), push `{name, descriptor}`, store
it back.  `target` is the current metadata list of the owning class. -/
def callable (target : List MethodMetadata) (propertyKey : String)
    (descriptor : String) : List MethodMetadata :=
  target ++ [{ name := propertyKey, descriptor := descriptor }]

/-- `getCallableMethods`: return the metadata list (the `|| []` default is
absorbed by starting registries from `[]`). -/
def getCallableMethods (target : List MethodMetadata) : List MethodMetadata :=
  target

/-- `isCallableMethod`: `callableMethods.some(method => method.name === methodName)`. -/
def isCallableMethod (target : List MethodMetadata) (methodName : String) : Bool :=
  (getCallableMethods target).any (fun m => m.name == methodName)

/-- Apply the decorator once per `(name, descriptor)` pair, in class
definition order, starting from an empty registry. -/
def buildRegistry (regs : List (String × String)) : List MethodMetadata :=
  regs.foldl (fun r p => callable r p.1 p.2) []

/-- The registry of `AgentObject`: the decorator runs for `ping`,
`getState` and `addMessage` (in source order); `dangerousMethod` and
`fetch` are not decorated. -/
def agentObjectRegistry : List MethodMetadata :=
  callable (callable (callable [] "ping" "ping") "getState" "getState")
    "addMessage" "addMessage"

/-- `typeof instance[method] === "function"` restricted to the methods
declared on `AgentObject` (inherited prototype functions are irrelevant:
they sit behind the registry gate, which rejects them first). -/
def agentHasMethod (m : String) : Bool :=
  m == "fetch" || m == "ping" || m == "getState" || m == "addMessage" ||
    m == "dangerousMethod"

/-! ## Stateful object (src/agent.ts) -/

/-- The in-memory state of `AgentObject`.  `lastUpdated` holds the ISO
string of the Date (or `none` for the initial `null`). -/
structure AgentState where
  counter : Nat
  messages : List String
  lastUpdated : Option String

/-- The compile-time default state: `{counter: 0, messages: [], lastUpdated: null}`. -/
def initialAgentState : AgentState :=
  { counter := 0, messages := [], lastUpdated := none }

/-- JSON serialization of the state (Dates were stored as ISO strings). -/
def AgentState.toJson (s : AgentState) : Json :=
  Json.obj
    [("counter", Json.num (s.counter : Int)),
     ("messages", Json.arr (s.messages.map Json.str)),
     ("lastUpdated",
       match s.lastUpdated with
       | none => Json.null
       | some d => Json.str d)]

/-- The key-value persistence substrate (`this.storage.raw`): an
association list, later puts shadowing earlier ones. -/
def Store : Type := List (String × AgentState)

/-- `storage.raw.put(key, value)`. -/
def storePut (s : Store) (k : String) (v : AgentState) : Store :=
  (k, v) :: s

/-- `storage.raw.get(key)`: the most recent value put under the key. -/
def storeGet (s : Store) (k : String) : Option AgentState :=
  (s.find? (fun p => p.1 == k)).map (fun p => p.2)

/-- One addressable `AgentObject` instance: its in-memory state and its
attached persistence substrate. -/
structure AgentInstance where
  state : AgentState
  store : Store

/-- The ambient Date environment for one invocation: `iso` is
`new Date().toISOString()`, `locale tz` is
`new Date().toLocaleString("en-US", { timeZone: tz })`. -/
structure Clock where
  iso : String
  locale : String → String

/-- `String.prototype.endsWith`, modelled over the character list (the
built-in `String.endsWith` does not reduce inside the kernel). -/
def pathEndsWith (s suffix : String) : Bool :=
  suffix.data.isSuffixOf s.data

/-- `Array.prototype.slice(-n)`: the last `n` elements (all of them when
the list is shorter). -/
def sliceLast (n : Nat) (l : List String) : List String :=
  l.drop (l.length - n)

/-- The log entry appended by `ping`:
`ping ${timezone || "default"} at ${new Date().toISOString()}`. -/
def pingEntry (clock : Clock) (timezone : Option Json) : String :=
  "ping " ++ (if jsTruthyOpt timezone then jsDisplayOpt timezone else "default")
    ++ " at " ++ clock.iso

/-- The `ping` method: bump the counter, stamp `lastUpdated`, append a log
entry truncated to the last 10, persist the new state under "state", then
return "pong" (with a locale rendering when a truthy timezone is given). -/
def AgentObject.ping (inst : AgentInstance) (clock : Clock)
    (timezone : Option Json) : Json × AgentInstance :=
  let newState : AgentState :=
    { counter := inst.state.counter + 1
      lastUpdated := some clock.iso
      messages := sliceLast 10 (inst.state.messages ++ [pingEntry clock timezone]) }
  let newStore := storePut inst.store "state" newState
  let result : String :=
    if jsTruthyOpt timezone then
      "pong from " ++ jsDisplayOpt timezone ++ " at "
        ++ clock.locale (jsDisplayOpt timezone)
    else "pong"
  (Json.str result, { state := newState, store := newStore })

/-- The `getState` method: `stored || this.state` — the persisted value
when present (persisted states are objects, hence truthy), else the
in-memory state.  Reads only; the instance is unchanged. -/
def AgentObject.getState (inst : AgentInstance) : AgentState × AgentInstance :=
  ((storeGet inst.store "state").getD inst.state, inst)

/-- The `addMessage` method: append
`${message} at ${new Date().toISOString()}` truncated to the last 10
(counter and lastUpdated spread through unchanged), persist the new state
under "state", return a confirmation string. -/
def AgentObject.addMessage (inst : AgentInstance) (clock : Clock)
    (message : Option Json) : Json × AgentInstance :=
  let newState : AgentState :=
    { counter := inst.state.counter
      lastUpdated := inst.state.lastUpdated
      messages := sliceLast 10
        (inst.state.messages ++ [jsDisplayOpt message ++ " at " ++ clock.iso]) }
  let newStore := storePut inst.store "state" newState
  (Json.str ("Message \x22" ++ jsDisplayOpt message ++ "\x22 added successfully"),
    { state := newState, store := newStore })

/-- The undecorated `dangerousMethod`: exists on the instance, returns a
string, mutates nothing. -/
def AgentObject.dangerousMethod (inst : AgentInstance) : Json × AgentInstance :=
  (Json.str "This method should not be accessible", inst)

/-- `instance[method](...params)` for the methods of `AgentObject`:
positional spread binds the first parameter (undefined when absent).  The
final catch-all is unreachable through the dispatcher (it is guarded by
`agentHasMethod`). -/
def invokeAgentMethod (inst : AgentInstance) (clock : Clock) (method : String)
    (params : List Json) : Json × AgentInstance :=
  if method == "ping" then AgentObject.ping inst clock params.head?
  else if method == "getState" then
    let r := AgentObject.getState inst
    (AgentState.toJson r.1, r.2)
  else if method == "addMessage" then AgentObject.addMessage inst clock params.head?
  else if method == "dangerousMethod" then AgentObject.dangerousMethod inst
  else (Json.null, inst)

/-- The message of the error thrown when the method is not registered. -/
def notCallableMessage (method : String) : String :=
  "Method \x27" ++ method ++ "\x27 is not callable. Did you forget to add @callable()?"

/-- The message of the error thrown when the instance lacks the method. -/
def methodMissingMessage (method : String) : String :=
  "Method \x27" ++ method ++ "\x27 not found on instance"

/-- `dispatchRpcCall(instance, method, params)`: throw when the method is
not in the registry, throw when the instance has no such function, else
invoke it.  Errors are modelled as `Except.error` carrying the message;
an error is raised before any method body runs, so it carries no new
instance. -/
def dispatchRpcCall (inst : AgentInstance) (clock : Clock) (method : String)
    (params : List Json) : Except String (Json × AgentInstance) :=
  if !(isCallableMethod agentObjectRegistry method) then
    Except.error (notCallableMessage method)
  else if !(agentHasMethod method) then
    Except.error (methodMissingMessage method)
  else
    Except.ok (invokeAgentMethod inst clock method params)

/-! ## Transport entry point (AgentObject.fetch) -/

/-- The `{method, params}` shape destructured from a successfully parsed
request body; `params` is `none` when the field is absent. -/
structure RpcBody where
  method : String
  params : Option (List Json)

/-- An inbound transport request.  `body` is the outcome of
`request.json()`: `Except.error` carries the parse error message. -/
structure Request where
  pathname : String
  httpMethod : String
  body : Except String RpcBody

/-- A transport response: a status and either a JSON envelope or plain text. -/
inductive ResponseBody where
  | json (j : Json) : ResponseBody
  | text (t : String) : ResponseBody

/-- A transport response. -/
structure Response where
  status : Nat
  body : ResponseBody

/-- The success envelope: `new Response(JSON.stringify({result}), ...)`,
default status 200. -/
def successResponse (result : Json) : Response :=
  { status := 200, body := ResponseBody.json (Json.obj [("result", result)]) }

/-- The failure envelope: `new Response(JSON.stringify({error: e.message}),
{status: 500, ...})` — the single catch block of `fetch`. -/
def errorResponse (message : String) : Response :=
  { status := 500, body := ResponseBody.json (Json.obj [("error", Json.str message)]) }

/-- The body of the try/catch of `fetch` for an RPC-shaped request: a body
parse failure or a dispatcher throw lands in the catch (error envelope,
instance untouched); a dispatch result is wrapped in the success
envelope.  `params = []` is the destructuring default. -/
def AgentObject.handleRpc (inst : AgentInstance) (clock : Clock)
    (body : Except String RpcBody) : Response × AgentInstance :=
  match body with
  | Except.error e => (errorResponse e, inst)
  | Except.ok b =>
    match dispatchRpcCall inst clock b.method (b.params.getD []) with
    | Except.ok (result, inst2) => (successResponse result, inst2)
    | Except.error e => (errorResponse e, inst)

/-- The `fetch` entry point: RPC-shaped requests (`pathname` ending in
"/rpc", method POST) go through the RPC handler; everything else gets the
fixed fallback response. -/
def AgentObject.fetch (inst : AgentInstance) (clock : Clock) (req : Request) :
    Response × AgentInstance :=
  if pathEndsWith req.pathname "/rpc" && req.httpMethod == "POST" then
    AgentObject.handleRpc inst clock req.body
  else
    ({ status := 200, body := ResponseBody.text "Hello from Actor!" }, inst)

/-- HTTP 4xx, the client-error status class (what the spec calls a
"client error"). -/
def isClientErrorStatus (status : Nat) : Bool :=
  decide (400 ≤ status) && decide (status ≤ 499)

/-- A response body has exactly one of the fields `result` / `error`. -/
def responseEnvelopeOk (r : Response) : Bool :=
  match r.body with
  | ResponseBody.json j => (hasField j "result") ^^ (hasField j "error")
  | ResponseBody.text _ => false

/-! ## Client proxy (src/lib/actorClient.ts) -/

/-- The request body serialized by `ActorProxy.callMethod`:
`{method, params: params || []}`. -/
def callMethodRequestBody (method : String) (params : Option (List Json)) : Json :=
  Json.obj [("method", Json.str method), ("params", Json.arr (params.getD []))]

/-- `response.ok`: status in the inclusive range 200..299. -/
def statusOk (status : Nat) : Bool :=
  decide (200 ≤ status) && decide (status ≤ 299)

/-- How one proxy call terminates for the caller. -/
inductive ClientOutcome where
  | transportError (status : Nat) : ClientOutcome
  | remoteError (message : String) : ClientOutcome
  | success (value : Option Json) : ClientOutcome

/-- The response handling of `ActorProxy.callMethod`: throw on a
non-2xx status; otherwise throw `RPC error: ...` when `result.error` is
truthy; otherwise resolve with `result.result` (undefined when absent). -/
def callMethodOutcome (status : Nat) (body : Json) : ClientOutcome :=
  if !(statusOk status) then ClientOutcome.transportError status
  else if jsTruthyOpt (jsonGet body "error") then
    ClientOutcome.remoteError ("RPC error: " ++ jsDisplayOpt (jsonGet body "error"))
  else ClientOutcome.success (jsonGet body "result")

/-! ## Concrete fixtures for witnesses and counterexamples -/

/-- A fixed clock for concrete runs. -/
def sampleClock : Clock :=
  { iso := "2024-01-01T00:00:00.000Z", locale := fun _ => "1/1/2024, 12:00:00 AM" }

/-- An instance with visible prior state, used to observe non-mutation. -/
def sampleInst : AgentInstance :=
  { state := { counter := 5, messages := ["m0"], lastUpdated := some "T0" }
    store := [] }

/-- An RPC request naming the undecorated `dangerousMethod`. -/
def dangerousReq : Request :=
  { pathname := "/actors/agent-object/session-1/rpc"
    httpMethod := "POST"
    body := Except.ok { method := "dangerousMethod", params := some [] } }

/-- An RPC request whose body failed to parse. -/
def malformedReq : Request :=
  { pathname := "/actors/agent-object/session-1/rpc"
    httpMethod := "POST"
    body := Except.error "Unexpected end of JSON input" }

/-- An RPC request for `ping` with explicit empty params. -/
def pingReq : Request :=
  { pathname := "/actors/agent-object/session-1/rpc"
    httpMethod := "POST"
    body := Except.ok { method := "ping", params := some [] } }

/-- An RPC request for `ping` with the params field absent. -/
def pingReqNoParams : Request :=
  { pathname := "/actors/agent-object/session-1/rpc"
    httpMethod := "POST"
    body := Except.ok { method := "ping", params := none } }

/-- A persisted state distinct from the default. -/
def persistedSample : AgentState :=
  { counter := 3, messages := ["m1"], lastUpdated := some "T1" }

/-- A store holding `persistedSample` under "state". -/
def sampleStore : Store := [("state", persistedSample)]

/-- `(message, isoTimestamp)` pairs fed to `addMessage` in sequence. -/
def runAddMessages (inst : AgentInstance) (entries : List (String × String)) :
    AgentInstance :=
  entries.foldl
    (fun i p => (AgentObject.addMessage i { iso := p.2, locale := fun _ => "" }
      (some (Json.str p.1))).2) inst

/-- The log entry `addMessage` produces for a `(message, isoTimestamp)` pair. -/
def entryText (p : String × String) : String :=
  p.1 ++ " at " ++ p.2

/-! ## Helper lemmas -/

/-- Folding the decorator over a registration list appends the
corresponding entries in order. -/
lemma foldl_callable_append (regs : List (String × String))
    (acc : List MethodMetadata) :
    regs.foldl (fun r p => callable r p.1 p.2) acc =
      acc ++ regs.map (fun p => { name := p.1, descriptor := p.2 }) := by
  induction regs generalizing acc with
  | nil => simp
  | cons h t ih =>
    rw [List.foldl_cons, ih]
    simp [callable]

/-- For an RPC-shaped request, `fetch` is the RPC handler on the body. -/
lemma fetch_rpc (inst : AgentInstance) (clock : Clock) (req : Request)
    (h1 : pathEndsWith req.pathname "/rpc" = true) (h2 : req.httpMethod = "POST") :
    AgentObject.fetch inst clock req = AgentObject.handleRpc inst clock req.body := by
  simp [AgentObject.fetch, h1, h2]

/-- The only names in the registry of `AgentObject` are the three
decorated methods. -/
lemma callable_agent_cases (m : String)
    (h : isCallableMethod agentObjectRegistry m = true) :
    m = "ping" ∨ m = "getState" ∨ m = "addMessage" := by
  simp [isCallableMethod, getCallableMethods, agentObjectRegistry, callable] at h
  rcases h with h | h | h
  · exact Or.inl h.symm
  · exact Or.inr (Or.inl h.symm)
  · exact Or.inr (Or.inr h.symm)

/-! ## Claim theorems -/

/-- Claim C1: for every class (modelled as a registry built by applying
the decorator to a registration list) and every method name m,
`isCallableMethod` is true exactly when m was registered via the
decorator; in particular it is false for `dangerousMethod`, which exists
on the `AgentObject` instance but was never decorated. -/
theorem isCallable_iff_registered :
    (∀ (regs : List (String × String)) (m : String),
        isCallableMethod (buildRegistry regs) m =
          (regs.map Prod.fst).any (fun n => n == m)) ∧
    isCallableMethod agentObjectRegistry "dangerousMethod" = false ∧
    agentHasMethod "dangerousMethod" = true := by
  refine ⟨?_, by decide, by decide⟩
  intro regs m
  simp only [isCallableMethod, getCallableMethods, buildRegistry,
    foldl_callable_append, List.nil_append]
  induction regs with
  | nil => rfl
  | cons p t ih => simp [ih]

/-- Claim C2: dispatching any unregistered method name (for any instance,
any clock, any parameter list) fails with the NotCallableError message,
and the entry point leaves the instance (hence its state) unchanged —
the underlying method body never runs. -/
theorem dispatch_unregistered_fails (m : String)
    (h : isCallableMethod agentObjectRegistry m = false)
    (inst : AgentInstance) (clock : Clock) (params : List Json) (req : Request)
    (h1 : pathEndsWith req.pathname "/rpc" = true) (h2 : req.httpMethod = "POST")
    (h3 : req.body = Except.ok { method := m, params := some params }) :
    dispatchRpcCall inst clock m params = Except.error (notCallableMessage m) ∧
    AgentObject.fetch inst clock req = (errorResponse (notCallableMessage m), inst) := by
  have hd : dispatchRpcCall inst clock m params = Except.error (notCallableMessage m) := by
    simp [dispatchRpcCall, h]
  refine ⟨hd, ?_⟩
  rw [fetch_rpc inst clock req h1 h2, h3]
  simp [AgentObject.handleRpc, hd]

/-- Witness for C2 at the concrete unregistered `dangerousMethod` on an
instance with visible prior state. -/
theorem dispatch_unregistered_fails_witness :
    isCallableMethod agentObjectRegistry "dangerousMethod" = false ∧
    (dispatchRpcCall sampleInst sampleClock "dangerousMethod" [] =
        Except.error (notCallableMessage "dangerousMethod") ∧
      AgentObject.fetch sampleInst sampleClock dangerousReq =
        (errorResponse (notCallableMessage "dangerousMethod"), sampleInst)) :=
  ⟨by decide,
    dispatch_unregistered_fails "dangerousMethod" (by decide) sampleInst sampleClock
      [] dangerousReq (by decide) rfl rfl⟩

/-- Claim C9: `ping` and `addMessage` each build a fresh state value and
persist it under the key "state" before returning, so after either method
completes the persisted value equals the in-memory state. -/
theorem mutators_persist_state :
    (∀ (inst : AgentInstance) (clock : Clock) (tz : Option Json),
        storeGet (AgentObject.ping inst clock tz).2.store "state" =
          some (AgentObject.ping inst clock tz).2.state) ∧
    (∀ (inst : AgentInstance) (clock : Clock) (msg : Option Json),
        storeGet (AgentObject.addMessage inst clock msg).2.store "state" =
          some (AgentObject.addMessage inst clock msg).2.state) := by
  constructor <;> intro inst clock x <;> rfl

/-- Claim C3 counterexample: at a concrete RPC request whose body failed
to parse, the entry point responds with status 500 — a server-error
status, not a client-error (4xx) status as the claim states. -/
theorem malformed_request_not_client_error :
    (AgentObject.fetch sampleInst sampleClock malformedReq).1.status = 500 ∧
    isClientErrorStatus
      (AgentObject.fetch sampleInst sampleClock malformedReq).1.status = false := by
  constructor <;> rfl

/-- Claim C3 amended: for every RPC-shaped request whose body is missing
or not parseable, the entry point responds with status 500 and an error
envelope carrying the parse error message, and no dispatch is attempted
(the instance is returned unchanged). -/
theorem malformed_request_500_no_dispatch (inst : AgentInstance) (clock : Clock)
    (e : String) (req : Request)
    (h1 : pathEndsWith req.pathname "/rpc" = true) (h2 : req.httpMethod = "POST")
    (h3 : req.body = Except.error e) :
    AgentObject.fetch inst clock req = (errorResponse e, inst) := by
  rw [fetch_rpc inst clock req h1 h2, h3]
  rfl

/-- Witness for the amended C3 at the concrete malformed request. -/
theorem malformed_request_500_no_dispatch_witness :
    AgentObject.fetch sampleInst sampleClock malformedReq =
      (errorResponse "Unexpected end of JSON input", sampleInst) :=
  malformed_request_500_no_dispatch sampleInst sampleClock
    "Unexpected end of JSON input" malformedReq (by decide) rfl rfl

/-- Claim C4: on a freshly re-instantiated object (in-memory state equal
to the compile-time default), `getState` returns the persisted value
whenever one is present under the key "state" (and a put makes the put
value the one present), and returns the in-memory default exactly when
nothing is persisted — it never fabricates data. -/
theorem getState_prefers_persisted :
    (∀ (store : Store) (v : AgentState), storeGet store "state" = some v →
        (AgentObject.getState { state := initialAgentState, store := store }).1 = v) ∧
    (∀ store : Store, storeGet store "state" = none →
        (AgentObject.getState { state := initialAgentState, store := store }).1 =
          initialAgentState) ∧
    (∀ (store : Store) (v : AgentState),
        storeGet (storePut store "state" v) "state" = some v) := by
  refine ⟨?_, ?_, ?_⟩
  · intro store v h
    simp [AgentObject.getState, h]
  · intro store h
    simp [AgentObject.getState, h]
  · intro store v
    rfl

/-- Witness for C4: a store holding a persisted state, and the empty
store, both evaluated concretely. -/
theorem getState_prefers_persisted_witness :
    storeGet sampleStore "state" = some persistedSample ∧
    (AgentObject.getState { state := initialAgentState, store := sampleStore }).1 =
      persistedSample ∧
    (AgentObject.getState { state := initialAgentState, store := [] }).1 =
      initialAgentState :=
  ⟨rfl, getState_prefers_persisted.1 sampleStore persistedSample rfl,
    getState_prefers_persisted.2.1 [] rfl⟩

/-- A list already within the bound is left whole by `sliceLast`. -/
lemma sliceLast_of_length_le (n : Nat) (l : List String) (h : l.length ≤ n) :
    sliceLast n l = l := by
  simp [sliceLast, Nat.sub_eq_zero_of_le h]

/-- `sliceLast` never exceeds the bound. -/
lemma sliceLast_length_le (n : Nat) (l : List String) :
    (sliceLast n l).length ≤ n := by
  simp only [sliceLast, List.length_drop]
  omega

/-- Truncating, appending, then truncating again is the same as
truncating once: the FIFO window only depends on the full history. -/
lemma sliceLast_append_absorb (n : Nat) (xs ys : List String) :
    sliceLast n (sliceLast n xs ++ ys) = sliceLast n (xs ++ ys) := by
  simp only [sliceLast]
  rw [List.drop_append_eq_append_drop, List.drop_append_eq_append_drop,
    List.drop_drop]
  simp only [List.length_append, List.length_drop]
  congr 1
  · congr 1
    omega
  · congr 1
    omega

/-- Running `addMessage` over a sequence of `(message, timestamp)` pairs
leaves the last-10 window of the whole appended history. -/
lemma runAddMessages_messages (entries : List (String × String))
    (inst : AgentInstance) (h : inst.state.messages.length ≤ 10) :
    (runAddMessages inst entries).state.messages =
      sliceLast 10 (inst.state.messages ++ entries.map entryText) := by
  induction entries generalizing inst with
  | nil =>
    simpa [runAddMessages] using (sliceLast_of_length_le 10 inst.state.messages h).symm
  | cons p t ih =>
    have hstep :
        (AgentObject.addMessage inst { iso := p.2, locale := fun _ => "" }
            (some (Json.str p.1))).2.state.messages =
          sliceLast 10 (inst.state.messages ++ [entryText p]) := by
      simp [AgentObject.addMessage, jsDisplayOpt, Json.display, entryText]
    have hrun :
        runAddMessages inst (p :: t) =
          runAddMessages
            (AgentObject.addMessage inst { iso := p.2, locale := fun _ => "" }
              (some (Json.str p.1))).2 t := rfl
    rw [hrun, ih _ (by rw [hstep]; exact sliceLast_length_le 10 _), hstep,
      sliceLast_append_absorb]
    simp

/-- Claim C5: starting from the empty message log, sequentially adding 15
entries through `addMessage` leaves exactly the last 10 entries added, in
oldest-first order. -/
theorem addMessage_bounded_log
    (p1 p2 p3 p4 p5 p6 p7 p8 p9 p10 p11 p12 p13 p14 p15 : String × String) :
    (runAddMessages { state := initialAgentState, store := [] }
        [p1, p2, p3, p4, p5, p6, p7, p8, p9, p10, p11, p12, p13, p14, p15]).state.messages =
      [entryText p6, entryText p7, entryText p8, entryText p9, entryText p10,
       entryText p11, entryText p12, entryText p13, entryText p14, entryText p15] := by
  rw [runAddMessages_messages _ _ (by simp [initialAgentState])]
  rfl

/-- Claim C6: for every JSON value v, the success envelope the entry point
builds for v, fed through the client proxy response handling, yields
exactly v back. -/
theorem rpc_roundtrip (v : Json) :
    successResponse v =
      { status := 200, body := ResponseBody.json (Json.obj [("result", v)]) } ∧
    callMethodOutcome (successResponse v).status (Json.obj [("result", v)]) =
      ClientOutcome.success (some v) :=
  ⟨rfl, rfl⟩

/-- Claim C7 counterexample: a success-status response whose body carries
the error field with the empty-string message is not rejected with
RemoteError — `callMethod` checks truthiness, not presence, so the call
succeeds and returns undefined. -/
theorem callMethod_falsy_error_counterexample :
    jsonGet (Json.obj [("error", Json.str "")]) "error" = some (Json.str "") ∧
    callMethodOutcome 200 (Json.obj [("error", Json.str "")]) =
      ClientOutcome.success none :=
  ⟨rfl, rfl⟩

/-- Claim C7 amended: non-success status fails with TransportError
carrying the status; otherwise a present and truthy error field fails
with RemoteError carrying its message; otherwise (error field absent or
falsy) the call returns the result field. -/
theorem callMethod_outcomes :
    (∀ (status : Nat) (body : Json), statusOk status = false →
        callMethodOutcome status body = ClientOutcome.transportError status) ∧
    (∀ (status : Nat) (body : Json) (e : Json), statusOk status = true →
        jsonGet body "error" = some e → e.truthy = true →
        callMethodOutcome status body =
          ClientOutcome.remoteError ("RPC error: " ++ e.display)) ∧
    (∀ (status : Nat) (body : Json), statusOk status = true →
        jsTruthyOpt (jsonGet body "error") = false →
        callMethodOutcome status body =
          ClientOutcome.success (jsonGet body "result")) := by
  refine ⟨?_, ?_, ?_⟩
  · intro s b h
    simp [callMethodOutcome, h]
  · intro s b e h1 h2 h3
    simp [callMethodOutcome, h1, h2, jsTruthyOpt, h3, jsDisplayOpt]
  · intro s b h1 h2
    simp [callMethodOutcome, h1, h2]

/-- Witness for the amended C7: one concrete response per branch. -/
theorem callMethod_outcomes_witness :
    callMethodOutcome 404 (Json.obj []) = ClientOutcome.transportError 404 ∧
    callMethodOutcome 200 (Json.obj [("error", Json.str "boom")]) =
      ClientOutcome.remoteError ("RPC error: " ++ (Json.str "boom").display) ∧
    callMethodOutcome 200 (Json.obj [("result", Json.num 7)]) =
      ClientOutcome.success (some (Json.num 7)) :=
  ⟨callMethod_outcomes.1 404 (Json.obj []) rfl,
    callMethod_outcomes.2.1 200 (Json.obj [("error", Json.str "boom")])
      (Json.str "boom") rfl rfl rfl,
    callMethod_outcomes.2.2 200 (Json.obj [("result", Json.num 7)]) rfl rfl⟩

/-- Claim C8: every response the entry point produces for an RPC-shaped
request is a JSON envelope with exactly one of the fields result/error. -/
theorem rpc_response_envelope_exclusive (inst : AgentInstance) (clock : Clock)
    (req : Request)
    (h1 : pathEndsWith req.pathname "/rpc" = true) (h2 : req.httpMethod = "POST") :
    responseEnvelopeOk (AgentObject.fetch inst clock req).1 = true := by
  rw [fetch_rpc inst clock req h1 h2]
  cases hb : req.body with
  | error e => rfl
  | ok b =>
    simp only [AgentObject.handleRpc]
    cases hd : dispatchRpcCall inst clock b.method (b.params.getD []) with
    | error e => rfl
    | ok pr =>
      obtain ⟨v, inst2⟩ := pr
      rfl

/-- Witness for C8 at a concrete successful request and the concrete
malformed request. -/
theorem rpc_response_envelope_exclusive_witness :
    responseEnvelopeOk (AgentObject.fetch sampleInst sampleClock pingReq).1 = true ∧
    responseEnvelopeOk (AgentObject.fetch sampleInst sampleClock malformedReq).1 = true :=
  ⟨rpc_response_envelope_exclusive sampleInst sampleClock pingReq (by decide) rfl,
    rpc_response_envelope_exclusive sampleInst sampleClock malformedReq (by decide) rfl⟩

/-- Claim C10: an RPC body without a params field behaves exactly like one
with explicit empty params (the destructuring default), and for a
registered method the request dispatches successfully (status 200) rather
than failing as malformed. -/
theorem params_default_empty (inst : AgentInstance) (clock : Clock) (req : Request)
    (m : String)
    (h1 : pathEndsWith req.pathname "/rpc" = true) (h2 : req.httpMethod = "POST")
    (h3 : req.body = Except.ok { method := m, params := none }) :
    AgentObject.fetch inst clock req =
      AgentObject.fetch inst clock
        { pathname := req.pathname, httpMethod := req.httpMethod,
          body := Except.ok { method := m, params := some [] } } ∧
    (isCallableMethod agentObjectRegistry m = true →
      (AgentObject.fetch inst clock req).1.status = 200) := by
  have hbase :
      AgentObject.fetch inst clock req =
        AgentObject.handleRpc inst clock (Except.ok { method := m, params := none }) := by
    rw [fetch_rpc inst clock req h1 h2, h3]
  constructor
  · rw [hbase, fetch_rpc inst clock
      { pathname := req.pathname, httpMethod := req.httpMethod,
        body := Except.ok { method := m, params := some [] } } h1 h2]
    rfl
  · intro hc
    rcases callable_agent_cases m hc with h | h | h <;> subst h <;> rw [hbase] <;> rfl

/-- Witness for C10: the concrete `ping` request without params equals the
one with explicit empty params and succeeds. -/
theorem params_default_empty_witness :
    AgentObject.fetch sampleInst sampleClock pingReqNoParams =
      AgentObject.fetch sampleInst sampleClock
        { pathname := pingReqNoParams.pathname,
          httpMethod := pingReqNoParams.httpMethod,
          body := Except.ok { method := "ping", params := some [] } } ∧
    (AgentObject.fetch sampleInst sampleClock pingReqNoParams).1.status = 200 := by
  have h := params_default_empty sampleInst sampleClock pingReqNoParams "ping"
    (by decide) rfl rfl
  exact ⟨h.1, h.2 (by decide)⟩
